import Mathlib

/-!
Shallow embedding of the geometric-clipmap core of the SCom-Tree-for-2D
repository (files include/global.h, include/clipmap.h, src/clipmap.cpp,
src/graphicalInterface.cpp), together with a verification of the
specification's claims about it.

Floating-point values of the source (`float`, `glm::vec2`) are modelled as
exact rationals; machine integers as `Int`/`Nat`; GPU handles as records
holding the observable allocation parameters; fallible operations (such as
an out-of-bounds `std::vector` access, which is undefined behavior in the
source) return `Option`.

The repository contains two translation units declaring the same clipmap
symbols: the self-contained application `src/graphicalInterface.cpp` (the
variant the specification was written from) and the modular extraction
`src/clipmap.cpp`, whose `updateClipmapLevels` has the re-centering body
commented out.  Both are embedded; functions whose bodies coincide in the
two files are embedded once.
-/

namespace SComTree

/-- Number of LOD levels (`L = 8`, include/global.h line 14 and
graphicalInterface.cpp line 11). -/
def L : ℕ := 8

/-- Clipmap texture / grid size (`N = 255`, include/global.h line 15). -/
def N : ℕ := 255

/-- Rendering block size (`BLOCK_SIZE = 64 = (N+1)/4`, include/global.h
line 16). -/
def BLOCK_SIZE : ℕ := 64

/-- Observable parameters of a GPU texture allocated with
`glTexImage2D(GL_TEXTURE_2D, 0, fmt, width, height, ...)`. -/
@[ext]
structure GLTexture where
  width : ℕ
  height : ℕ
  deriving DecidableEq

/-- One LOD level (`struct ClipmapLevel`, include/clipmap.h lines 9-24). -/
@[ext]
structure ClipmapLevel where
  elevationTexture : GLTexture
  normalTexture : GLTexture
  textureOffset : ℤ × ℤ
  scale : ℚ
  worldOffset : ℚ × ℚ
  active : Bool
  updateCount : ℤ
  deriving DecidableEq

/-- One shared geometry tile (`struct RenderBlock`, include/clipmap.h lines
26-30).  The GPU-side VBO/EBO contents are modelled by the vertex and index
data uploaded into them by `createRenderBlock`. -/
@[ext]
structure RenderBlock where
  vertices : List (ℤ × ℤ)
  indices : List ℕ
  indexCount : ℕ
  blockOffset : ℤ × ℤ
  deriving DecidableEq

/-- `createRenderBlock` (clipmap.cpp lines 12-63, identical in
graphicalInterface.cpp lines 392-443): builds a `(sizeX+1) × (sizeZ+1)`
vertex grid starting at `(startX, startZ)` (z-major, x fastest, mirroring
the two nested `for` loops) and two counter-clockwise triangles per unit
quad, pushing for each quad the indices
`tl, bl, tr` then `tr, bl, br`.  A negative size makes the corresponding
C++ loop body run zero times, which `Int.toNat` reproduces. -/
def createRenderBlock (startX startZ sizeX sizeZ : ℤ) : RenderBlock :=
  let vertices : List (ℤ × ℤ) :=
    (List.range (sizeZ + 1).toNat).flatMap fun (z : ℕ) =>
      (List.range (sizeX + 1).toNat).map fun (x : ℕ) =>
        (startX + (x : ℤ), startZ + (z : ℤ))
  let indices : List ℕ :=
    (List.range sizeZ.toNat).flatMap fun z =>
      (List.range sizeX.toNat).flatMap fun x =>
        let tl := z * (sizeX.toNat + 1) + x
        let tr := tl + 1
        let bl := (z + 1) * (sizeX.toNat + 1) + x
        let br := bl + 1
        [tl, bl, tr, tr, bl, br]
  { vertices := vertices
    indices := indices
    indexCount := indices.length
    blockOffset := (startX, startZ) }

/-- `createGeometryBlocks` (clipmap.cpp lines 74-119, identical in
graphicalInterface.cpp lines 454-499): the three tile collections built
from the compile-time position tables, with `m = BLOCK_SIZE`.
Returns `(blocks, fixupStrips, interiorTrims)`. -/
def createGeometryBlocks :
    List RenderBlock × List RenderBlock × List RenderBlock :=
  let m : ℤ := BLOCK_SIZE
  let blockPositions : List (ℤ × ℤ) :=
    [(0, 0), (m, 0), (2*m, 0), (3*m, 0),
     (0, m), (3*m, m),
     (0, 2*m), (3*m, 2*m),
     (0, 3*m), (m, 3*m), (2*m, 3*m), (3*m, 3*m)]
  let fixupPositions : List (ℤ × ℤ) :=
    [(m-1, 0), (2*m, 0), (m-1, 3*m), (2*m, 3*m)]
  let trimPositions : List (ℤ × ℤ) :=
    [(m, m), (2*m-2, m), (m, 2*m-2), (2*m-2, 2*m-2)]
  (blockPositions.map fun p => createRenderBlock p.1 p.2 (m-1) (m-1),
   fixupPositions.map fun p => createRenderBlock p.1 p.2 3 (m-1),
   trimPositions.map fun p => createRenderBlock p.1 p.2 (m-2) (m-2))

/-- The global `blocks` vector after `createGeometryBlocks()` has run. -/
def blocks : List RenderBlock := createGeometryBlocks.1

/-- The global `fixupStrips` vector after `createGeometryBlocks()`. -/
def fixupStrips : List RenderBlock := createGeometryBlocks.2.1

/-- The global `interiorTrims` vector after `createGeometryBlocks()`. -/
def interiorTrims : List RenderBlock := createGeometryBlocks.2.2

/-- `createLevelTextures` (clipmap.cpp lines 128-149): allocates the `N×N`
elevation texture (GL_R32F) and the `N×N` normal texture (GL_RGBA8) and
resets `textureOffset` to `(0, 0)`. -/
def createLevelTextures (level : ClipmapLevel) : ClipmapLevel :=
  { level with
    elevationTexture := { width := N, height := N }
    normalTexture := { width := N, height := N }
    textureOffset := (0, 0) }

/-- The value-initialized `ClipmapLevel` produced for each slot by
`levels.resize(L)` (zero-initialized handles and fields). -/
def defaultLevel : ClipmapLevel :=
  { elevationTexture := { width := 0, height := 0 }
    normalTexture := { width := 0, height := 0 }
    textureOffset := (0, 0)
    scale := 0
    worldOffset := (0, 0)
    active := false
    updateCount := 0 }

/-- Body of the `initClipmapLevels` loop for index `i` (clipmap.cpp lines
158-168): `scale = pow(2.0f, i)`, `worldOffset = (0,0)`, `active = true`,
`updateCount = 0`, then `createLevelTextures`. -/
def initLevel (i : ℕ) : ClipmapLevel :=
  createLevelTextures
    { defaultLevel with
      scale := 2 ^ i
      worldOffset := (0, 0)
      active := true
      updateCount := 0 }

/-- `initClipmapLevels` (clipmap.cpp lines 154-173, identical in
graphicalInterface.cpp lines 534-553): the `levels` vector it leaves
behind.  (The call to `createGeometryBlocks()` it performs is embedded by
the pure definitions `blocks`, `fixupStrips`, `interiorTrims` above.) -/
def initClipmapLevels : List ClipmapLevel :=
  (List.range L).map initLevel

/-- `gridSpacing = 5.0f * level.scale` (graphicalInterface.cpp line 566,
clipmap.cpp line 186): the distance between grid vertices of a level. -/
def gridSpacing (scale : ℚ) : ℚ := 5 * scale

/-- The snapped world offset computed by `updateClipmapLevels`
(graphicalInterface.cpp lines 567-573):
`gridCoords = ivec2(floor(viewer.x / gridSpacing), floor(viewer.y /
gridSpacing))`, then `newWorldOffset = vec2(gridCoords) * gridSpacing`. -/
def snapOffset (viewerXZ : ℚ × ℚ) (scale : ℚ) : ℚ × ℚ :=
  let s := gridSpacing scale
  ((⌊viewerXZ.1 / s⌋ : ℚ) * s, (⌊viewerXZ.2 / s⌋ : ℚ) * s)

/-- Per-level body of `updateClipmapLevels` in graphicalInterface.cpp
(lines 561-588): when the snapped offset differs from the stored one,
store it and increment `updateCount`; in all cases set `active = true`. -/
def updateLevelGI (viewerXZ : ℚ × ℚ) (level : ClipmapLevel) : ClipmapLevel :=
  let newWorldOffset := snapOffset viewerXZ level.scale
  let level' :=
    if level.worldOffset ≠ newWorldOffset then
      { level with
        worldOffset := newWorldOffset
        updateCount := level.updateCount + 1 }
    else level
  { level' with active := true }

/-- `updateClipmapLevels` of graphicalInterface.cpp (lines 558-589), the
re-centering engine of the running application, acting on the `levels`
vector; the viewer position is `vec2(cameraPos.x, cameraPos.z)`. -/
def updateClipmapLevels (viewerXZ : ℚ × ℚ) (ls : List ClipmapLevel) :
    List ClipmapLevel :=
  ls.map (updateLevelGI viewerXZ)

/-- `updateClipmapLevels` of the modular translation unit src/clipmap.cpp
(lines 178-209): the snapped offset is still computed (lines 186-193) but
the block that would store it (lines 196-205) is commented out, so the
loop body only executes `level.active = true` (line 207). -/
def updateClipmapLevelsModular (viewerXZ : ℚ × ℚ) (ls : List ClipmapLevel) :
    List ClipmapLevel :=
  ls.map fun level =>
    let _newWorldOffset := snapOffset viewerXZ level.scale
    { level with active := true }

/-- The C++ expression `levels[levelIndex]` on a `std::vector`: `none` when
the access is out of bounds (undefined behavior in the source). -/
def levelAt (ls : List ClipmapLevel) (i : ℤ) : Option ClipmapLevel :=
  if i < 0 then none else ls[i.toNat]?

/-- Observable outcome of a `renderClipmapLevel` call that did not perform
an out-of-bounds access: how many `glDrawElements` calls were issued and
whether the guard read the record `levels[levelIndex]`. -/
@[ext]
structure RenderResult where
  drawCalls : ℕ
  readLevelRecord : Bool
  deriving DecidableEq

/-- `renderClipmapLevel` (clipmap.cpp lines 215-258, identical in
graphicalInterface.cpp lines 654-697).  The guard
`if(levelIndex >= L || !levels[levelIndex].active) return;` short-circuits:
for `levelIndex ≥ L` it returns before touching `levels`; otherwise it
evaluates `levels[levelIndex].active`, an out-of-bounds access (hence
`none`, undefined behavior) when `levelIndex` is negative or past the end.
When the level is active it issues one `glDrawElements` per entry of
`blocks`, then `fixupStrips`, then `interiorTrims`.  The function never
writes to any level record. -/
def renderClipmapLevel (levelIndex : ℤ) (ls : List ClipmapLevel) :
    Option RenderResult :=
  if (L : ℤ) ≤ levelIndex then
    some { drawCalls := 0, readLevelRecord := false }
  else
    match levelAt ls levelIndex with
    | none => none
    | some level =>
      if !level.active then
        some { drawCalls := 0, readLevelRecord := true }
      else
        some { drawCalls :=
                 blocks.length + fixupStrips.length + interiorTrims.length
               readLevelRecord := true }

/-- A tile covers the unit quad with lower corner `q` iff all four corner
vertices of that quad belong to the tile's vertex grid (the two triangles
`createRenderBlock` emits for a quad use exactly these four vertices). -/
def coversQuad (b : RenderBlock) (q : ℤ × ℤ) : Bool :=
  b.vertices.contains (q.1, q.2) && b.vertices.contains (q.1 + 1, q.2) &&
  b.vertices.contains (q.1, q.2 + 1) && b.vertices.contains (q.1 + 1, q.2 + 1)

/-- All 12 + 4 + 4 = 20 tiles produced by `createGeometryBlocks()`. -/
def allTiles : List RenderBlock := blocks ++ fixupStrips ++ interiorTrims

/-- Number of tiles of `createGeometryBlocks()` covering a given unit
quad (the occupancy count of the spec's rasterization check). -/
def coverageCount (q : ℤ × ℤ) : ℕ :=
  (allTiles.filter fun b => coversQuad b q).length

/-- A level's `worldOffset` is exactly aligned to its grid: both
components are integer multiples of `gridSpacing = 5 * scale`. -/
def GridAligned (level : ClipmapLevel) : Prop :=
  ∃ k₁ k₂ : ℤ,
    level.worldOffset =
      ((k₁ : ℚ) * gridSpacing level.scale, (k₂ : ℚ) * gridSpacing level.scale)

/-- Iterating the re-centering engine over a sequence of viewer positions,
starting from the freshly initialized levels (one `updateClipmapLevels`
call per frame, as the render loop does). -/
def runFrames (moves : List (ℚ × ℚ)) : List ClipmapLevel :=
  moves.foldl (fun ls v => updateClipmapLevels v ls) initClipmapLevels

lemma updateLevelGI_of_ne (v : ℚ × ℚ) (l : ClipmapLevel)
    (h : l.worldOffset ≠ snapOffset v l.scale) :
    updateLevelGI v l =
      { l with
        worldOffset := snapOffset v l.scale
        updateCount := l.updateCount + 1
        active := true } := by
  simp [updateLevelGI, h]

lemma updateLevelGI_of_eq (v : ℚ × ℚ) (l : ClipmapLevel)
    (h : l.worldOffset = snapOffset v l.scale) :
    updateLevelGI v l = { l with active := true } := by
  simp [updateLevelGI, h]

lemma scale_updateLevelGI (v : ℚ × ℚ) (l : ClipmapLevel) :
    (updateLevelGI v l).scale = l.scale := by
  by_cases h : l.worldOffset = snapOffset v l.scale
  · rw [updateLevelGI_of_eq v l h]
  · rw [updateLevelGI_of_ne v l h]

lemma worldOffset_updateLevelGI (v : ℚ × ℚ) (l : ClipmapLevel) :
    (updateLevelGI v l).worldOffset = snapOffset v l.scale := by
  by_cases h : l.worldOffset = snapOffset v l.scale
  · rw [updateLevelGI_of_eq v l h]; exact h
  · rw [updateLevelGI_of_ne v l h]

lemma active_updateLevelGI (v : ℚ × ℚ) (l : ClipmapLevel) :
    (updateLevelGI v l).active = true := by
  by_cases h : l.worldOffset = snapOffset v l.scale
  · rw [updateLevelGI_of_eq v l h]
  · rw [updateLevelGI_of_ne v l h]

lemma updateLevelGI_idem (v : ℚ × ℚ) (l : ClipmapLevel) :
    updateLevelGI v (updateLevelGI v l) = updateLevelGI v l := by
  have h : (updateLevelGI v l).worldOffset
      = snapOffset v (updateLevelGI v l).scale := by
    rw [worldOffset_updateLevelGI, scale_updateLevelGI]
  rw [updateLevelGI_of_eq v _ h]
  ext <;> simp [active_updateLevelGI]

lemma gridAligned_updateLevelGI (v : ℚ × ℚ) (l : ClipmapLevel) :
    GridAligned (updateLevelGI v l) := by
  refine ⟨⌊v.1 / gridSpacing l.scale⌋, ⌊v.2 / gridSpacing l.scale⌋, ?_⟩
  rw [worldOffset_updateLevelGI, scale_updateLevelGI]
  rfl

lemma gridAligned_initLevel (i : ℕ) : GridAligned (initLevel i) := by
  exact ⟨0, 0, by simp [initLevel, createLevelTextures, defaultLevel]⟩

lemma forall_gridAligned_update (v : ℚ × ℚ) (ls : List ClipmapLevel) :
    List.Forall GridAligned (updateClipmapLevels v ls) := by
  rw [List.forall_iff_forall_mem]
  intro l hl
  rw [updateClipmapLevels, List.mem_map] at hl
  obtain ⟨l₀, -, rfl⟩ := hl
  exact gridAligned_updateLevelGI v l₀

/-- Claim C2: in the modular clipmap translation unit (src/clipmap.cpp), a
call to `updateClipmapLevels` writes only the `active` field of each level
(setting it to `true`): for every level, `worldOffset`, `updateCount`,
`scale`, `textureOffset`, `elevationTexture` and `normalTexture` are all
unchanged by the call, for every viewer position. -/
theorem modular_update_writes_only_active (v : ℚ × ℚ) (ls : List ClipmapLevel) :
    (updateClipmapLevelsModular v ls).map (fun l => l.active)
        = ls.map (fun _ => true) ∧
    (updateClipmapLevelsModular v ls).map (fun l => l.worldOffset)
        = ls.map (fun l => l.worldOffset) ∧
    (updateClipmapLevelsModular v ls).map (fun l => l.updateCount)
        = ls.map (fun l => l.updateCount) ∧
    (updateClipmapLevelsModular v ls).map (fun l => l.scale)
        = ls.map (fun l => l.scale) ∧
    (updateClipmapLevelsModular v ls).map (fun l => l.textureOffset)
        = ls.map (fun l => l.textureOffset) ∧
    (updateClipmapLevelsModular v ls).map (fun l => l.elevationTexture)
        = ls.map (fun l => l.elevationTexture) ∧
    (updateClipmapLevelsModular v ls).map (fun l => l.normalTexture)
        = ls.map (fun l => l.normalTexture) := by
  refine ⟨?_, ?_, ?_, ?_, ?_, ?_, ?_⟩ <;>
    (rw [updateClipmapLevelsModular, List.map_map]
     exact List.map_congr_left fun l _ => rfl)

/-- Claim C4: snap idempotence — for every fixed viewer position and every
starting level state, calling the re-centering engine twice in a row
yields the same levels (in particular the same `worldOffset`s) as calling
it once, and the second call increments no level's `updateCount`. -/
theorem recenter_idempotent (v : ℚ × ℚ) (ls : List ClipmapLevel) :
    updateClipmapLevels v (updateClipmapLevels v ls) = updateClipmapLevels v ls ∧
    (updateClipmapLevels v (updateClipmapLevels v ls)).map (fun l => l.updateCount)
      = (updateClipmapLevels v ls).map (fun l => l.updateCount) := by
  have h : updateClipmapLevels v (updateClipmapLevels v ls)
      = updateClipmapLevels v ls := by
    rw [updateClipmapLevels, updateClipmapLevels, List.map_map]
    exact List.map_congr_left fun l _ => updateLevelGI_idem v l
  exact ⟨h, by rw [h]⟩

/-- Claim C3: grid alignment invariant — for every level after
initialization and after any sequence of re-centering calls, both
components of `worldOffset` are exact integer multiples of that level's
`gridSpacing = 5 * scale` (no drift: the arithmetic is exact). -/
theorem grid_alignment_invariant (moves : List (ℚ × ℚ)) :
    List.Forall GridAligned (runFrames moves) := by
  have general : ∀ (ms : List (ℚ × ℚ)) (start : List ClipmapLevel),
      List.Forall GridAligned start →
      List.Forall GridAligned
        (ms.foldl (fun ls v => updateClipmapLevels v ls) start) := by
    intro ms
    induction ms with
    | nil => intro start h; exact h
    | cons a t ih =>
        intro start _
        exact ih (updateClipmapLevels a start) (forall_gridAligned_update a start)
  refine general moves initClipmapLevels ?_
  rw [List.forall_iff_forall_mem]
  intro l hl
  rw [initClipmapLevels, List.mem_map] at hl
  obtain ⟨i, -, rfl⟩ := hl
  exact gridAligned_initLevel i

/-- Claim C9: after `initClipmapLevels()` there are exactly `L` level
records and level `i` has `scale = 2^i`, `worldOffset = (0,0)`,
`active = true`, `updateCount = 0`, two `N×N` textures, and
`textureOffset = (0,0)`. -/
theorem init_levels_spec :
    initClipmapLevels.length = L ∧
    ∀ i, i < L →
      initClipmapLevels[i]? =
        some { elevationTexture := { width := N, height := N }
               normalTexture := { width := N, height := N }
               textureOffset := (0, 0)
               scale := 2 ^ i
               worldOffset := (0, 0)
               active := true
               updateCount := 0 } := by
  constructor
  · simp [initClipmapLevels]
  · intro i hi
    simp [initClipmapLevels, List.getElem?_map, List.getElem?_range hi,
      initLevel, createLevelTextures, defaultLevel]

/-- Witness for C9 at the concrete index `0`. -/
theorem init_levels_spec_witness :
    initClipmapLevels[0]? =
      some { elevationTexture := { width := N, height := N }
             normalTexture := { width := N, height := N }
             textureOffset := (0, 0)
             scale := 2 ^ 0
             worldOffset := (0, 0)
             active := true
             updateCount := 0 } :=
  init_levels_spec.2 0 (by decide)

/-- Claim C10: `active` is `true` for every level after initialization and
stays `true` after every re-centering call of either translation unit, on
any level state (`renderClipmapLevel` performs no write to any level at
all, as its embedding — which returns only a `RenderResult` — records). -/
theorem active_never_false :
    List.Forall (fun l => l.active = true) initClipmapLevels ∧
    (∀ (v : ℚ × ℚ) (ls : List ClipmapLevel),
        List.Forall (fun l => l.active = true) (updateClipmapLevels v ls)) ∧
    (∀ (v : ℚ × ℚ) (ls : List ClipmapLevel),
        List.Forall (fun l => l.active = true) (updateClipmapLevelsModular v ls)) := by
  refine ⟨?_, ?_, ?_⟩
  · rw [List.forall_iff_forall_mem]
    intro l hl
    rw [initClipmapLevels, List.mem_map] at hl
    obtain ⟨i, -, rfl⟩ := hl
    simp [initLevel, createLevelTextures]
  · intro v ls
    rw [List.forall_iff_forall_mem]
    intro l hl
    rw [updateClipmapLevels, List.mem_map] at hl
    obtain ⟨l₀, -, rfl⟩ := hl
    exact active_updateLevelGI v l₀
  · intro v ls
    rw [List.forall_iff_forall_mem]
    intro l hl
    rw [updateClipmapLevelsModular, List.mem_map] at hl
    obtain ⟨l₀, -, rfl⟩ := hl
    rfl

/-- Counterexample to claim C5 as stated: at the in-extent negative index
`-1` the guard `levelIndex >= L || !levels[levelIndex].active` does not
short-circuit, so the call evaluates `levels[-1].active` — an
out-of-bounds read of the levels vector (undefined behavior), not a safe
no-op that touches no level record. -/
theorem render_negative_index_not_noop :
    renderClipmapLevel (-1) initClipmapLevels = none ∧
    renderClipmapLevel (-1) initClipmapLevels
      ≠ some { drawCalls := 0, readLevelRecord := false } := by
  constructor
  · rw [renderClipmapLevel]
    rw [if_neg (by decide)]
    rfl
  · rw [renderClipmapLevel]
    rw [if_neg (by decide)]
    simp [levelAt]

/-- Claim C5 as amended: for `levelIndex ≥ L` the call returns without
issuing a draw call and without reading any level record; for an in-range
index whose level is inactive it issues no draw call and writes nothing,
but it does read the level record (its `active` flag); for a negative
`levelIndex` the guard does not protect the access and
`levels[levelIndex]` is read out of bounds (undefined behavior). -/
theorem render_guard_spec (idx : ℤ) (ls : List ClipmapLevel) :
    ((L : ℤ) ≤ idx →
        renderClipmapLevel idx ls = some { drawCalls := 0, readLevelRecord := false }) ∧
    (idx < 0 → renderClipmapLevel idx ls = none) ∧
    (∀ lvl, idx < (L : ℤ) → levelAt ls idx = some lvl → lvl.active = false →
        renderClipmapLevel idx ls
          = some { drawCalls := 0, readLevelRecord := true }) := by
  refine ⟨?_, ?_, ?_⟩
  · intro h
    rw [renderClipmapLevel, if_pos h]
  · intro h
    rw [renderClipmapLevel, if_neg (by omega), levelAt, if_pos h]
  · intro lvl h1 h2 h3
    rw [renderClipmapLevel, if_neg (by omega), h2]
    simp [h3]

/-- Witness for the amended C5 at the concrete out-of-range index `L = 8`
on the initialized level list. -/
theorem render_guard_spec_witness :
    renderClipmapLevel 8 initClipmapLevels
      = some { drawCalls := 0, readLevelRecord := false } :=
  (render_guard_spec 8 initClipmapLevels).1 (by decide)

lemma length_flatMap_const {α : Type} (n c : ℕ) (f : ℕ → List α)
    (h : ∀ i, (f i).length = c) :
    ((List.range n).flatMap f).length = n * c := by
  rw [List.length_flatMap]
  have hmap : (List.range n).map (List.length ∘ f) = List.replicate n c := by
    rw [List.eq_replicate_iff]
    constructor
    · simp
    · intro b hb
      rw [List.mem_map] at hb
      obtain ⟨a, -, rfl⟩ := hb
      exact h a
  rw [hmap, List.sum_replicate, smul_eq_mul]

lemma indices_length_createRenderBlock (startX startZ sizeX sizeZ : ℤ) :
    (createRenderBlock startX startZ sizeX sizeZ).indices.length
      = 6 * sizeX.toNat * sizeZ.toNat := by
  rw [createRenderBlock]
  dsimp only
  rw [length_flatMap_const sizeZ.toNat (sizeX.toNat * 6)]
  · ring
  · intro i
    rw [length_flatMap_const sizeX.toNat 6]
    intro j
    rfl

lemma indexCount_createRenderBlock (startX startZ sizeX sizeZ : ℤ) :
    (createRenderBlock startX startZ sizeX sizeZ).indexCount
      = 6 * sizeX.toNat * sizeZ.toNat :=
  indices_length_createRenderBlock startX startZ sizeX sizeZ

lemma vertices_length_createRenderBlock (startX startZ sizeX sizeZ : ℤ) :
    (createRenderBlock startX startZ sizeX sizeZ).vertices.length
      = (sizeZ + 1).toNat * (sizeX + 1).toNat := by
  rw [createRenderBlock]
  dsimp only
  rw [length_flatMap_const (sizeZ + 1).toNat (sizeX + 1).toNat]
  intro i
  simp

lemma initLevel_scale (i : ℕ) : (initLevel i).scale = 2 ^ i := rfl

lemma initLevel_worldOffset (i : ℕ) : (initLevel i).worldOffset = (0, 0) := rfl

lemma initLevel_updateCount (i : ℕ) : (initLevel i).updateCount = 0 := rfl

lemma updateCount_updateLevelGI (v : ℚ × ℚ) (l : ClipmapLevel) :
    (updateLevelGI v l).updateCount =
      if l.worldOffset = snapOffset v l.scale then l.updateCount
      else l.updateCount + 1 := by
  by_cases h : l.worldOffset = snapOffset v l.scale
  · rw [updateLevelGI_of_eq v l h, if_pos h]
  · rw [updateLevelGI_of_ne v l h, if_neg h]

lemma initClipmapLevels_explicit :
    initClipmapLevels =
      [initLevel 0, initLevel 1, initLevel 2, initLevel 3,
       initLevel 4, initLevel 5, initLevel 6, initLevel 7] := rfl

lemma mem_vertices_createRenderBlock (startX startZ sizeX sizeZ : ℤ)
    (hsx : 0 ≤ sizeX) (hsz : 0 ≤ sizeZ) (p : ℤ × ℤ) :
    p ∈ (createRenderBlock startX startZ sizeX sizeZ).vertices ↔
      startX ≤ p.1 ∧ p.1 ≤ startX + sizeX ∧
      startZ ≤ p.2 ∧ p.2 ≤ startZ + sizeZ := by
  rw [createRenderBlock]
  dsimp only
  rw [List.mem_flatMap]
  constructor
  · rintro ⟨z, hz, hp⟩
    rw [List.mem_map] at hp
    obtain ⟨x, hx, rfl⟩ := hp
    rw [List.mem_range] at hz hx
    dsimp only
    omega
  · rintro ⟨h1, h2, h3, h4⟩
    refine ⟨(p.2 - startZ).toNat, ?_, ?_⟩
    · rw [List.mem_range]; omega
    · rw [List.mem_map]
      refine ⟨(p.1 - startX).toNat, by rw [List.mem_range]; omega, ?_⟩
      rw [Prod.ext_iff]
      dsimp only
      omega

lemma coversQuad_createRenderBlock (startX startZ sizeX sizeZ : ℤ)
    (hsx : 0 ≤ sizeX) (hsz : 0 ≤ sizeZ) (q : ℤ × ℤ) :
    coversQuad (createRenderBlock startX startZ sizeX sizeZ) q =
      decide (startX ≤ q.1 ∧ q.1 + 1 ≤ startX + sizeX ∧
              startZ ≤ q.2 ∧ q.2 + 1 ≤ startZ + sizeZ) := by
  have hiff : coversQuad (createRenderBlock startX startZ sizeX sizeZ) q = true ↔
      (startX ≤ q.1 ∧ q.1 + 1 ≤ startX + sizeX ∧
       startZ ≤ q.2 ∧ q.2 + 1 ≤ startZ + sizeZ) := by
    rw [coversQuad, Bool.and_eq_true, Bool.and_eq_true, Bool.and_eq_true]
    rw [List.elem_iff, List.elem_iff, List.elem_iff, List.elem_iff]
    rw [mem_vertices_createRenderBlock startX startZ sizeX sizeZ hsx hsz,
      mem_vertices_createRenderBlock startX startZ sizeX sizeZ hsx hsz,
      mem_vertices_createRenderBlock startX startZ sizeX sizeZ hsx hsz,
      mem_vertices_createRenderBlock startX startZ sizeX sizeZ hsx hsz]
    dsimp only
    omega
  cases hb : coversQuad (createRenderBlock startX startZ sizeX sizeZ) q
  · refine (decide_eq_false fun hp => ?_).symm
    rw [hiff.mpr hp] at hb
    exact absurd hb (by simp)
  · exact (decide_eq_true (hiff.mp hb)).symm

lemma flatMap_range'_drop {α : Type} (f : ℕ → List α) (c : ℕ)
    (hc : ∀ i, (f i).length = c) :
    ∀ (z n a : ℕ), z < n →
      ((List.range' a n).flatMap f).drop (c * z)
        = f (a + z) ++ (List.range' (a + z + 1) (n - (z + 1))).flatMap f := by
  intro z
  induction z with
  | zero =>
      intro n a hn
      obtain ⟨k, rfl⟩ : ∃ k, n = k + 1 := ⟨n - 1, by omega⟩
      rw [Nat.mul_zero, List.drop_zero, List.range'_succ, List.flatMap_cons]
      simp
  | succ z ih =>
      intro n a hn
      obtain ⟨k, rfl⟩ : ∃ k, n = k + 1 := ⟨n - 1, by omega⟩
      rw [List.range'_succ, List.flatMap_cons]
      have h1 : c * (z + 1) = c + c * z := by ring
      rw [h1, ← List.drop_drop]
      have h2 : (f a ++ (List.range' (a + 1) k).flatMap f).drop c
          = (List.range' (a + 1) k).flatMap f := by
        rw [← hc a]
        exact List.drop_left _ _
      rw [h2, ih k (a + 1) (by omega)]
      have e1 : a + 1 + z = a + (z + 1) := by omega
      have e2 : k - (z + 1) = k + 1 - (z + 1 + 1) := by omega
      rw [e1, e2]

lemma getElem_vertices_createRenderBlock (startX startZ sizeX sizeZ : ℤ)
    (hsx : 0 ≤ sizeX) (hsz : 0 ≤ sizeZ) (x z : ℕ)
    (hx : x < sizeX.toNat + 1) (hz : z < sizeZ.toNat + 1) :
    (createRenderBlock startX startZ sizeX sizeZ).vertices[z * (sizeX.toNat + 1) + x]?
      = some (startX + (x : ℤ), startZ + (z : ℤ)) := by
  rw [createRenderBlock]
  dsimp only
  have e1 : (sizeX + 1).toNat = sizeX.toNat + 1 := by omega
  have e2 : (sizeZ + 1).toNat = sizeZ.toNat + 1 := by omega
  rw [e1, e2]
  set nx := sizeX.toNat with hnx
  set nz := sizeZ.toNat with hnz
  have hidx : z * (nx + 1) + x = (nx + 1) * z + x := by ring
  rw [hidx, ← List.getElem?_drop, List.range_eq_range' (nz + 1)]
  rw [flatMap_range'_drop _ (nx + 1) (fun i => by simp) z (nz + 1) 0 hz]
  rw [Nat.zero_add]
  rw [List.getElem?_append_left (by simpa using hx)]
  simp only [List.getElem?_map, List.getElem?_range hx, Option.map_some]
  rfl

lemma indices_quad_createRenderBlock (startX startZ sizeX sizeZ : ℤ)
    (x z : ℕ) (hx : x < sizeX.toNat) (hz : z < sizeZ.toNat) :
    ((createRenderBlock startX startZ sizeX sizeZ).indices.drop
        (6 * (z * sizeX.toNat + x))).take 6
      = [z * (sizeX.toNat + 1) + x,
         (z + 1) * (sizeX.toNat + 1) + x,
         z * (sizeX.toNat + 1) + x + 1,
         z * (sizeX.toNat + 1) + x + 1,
         (z + 1) * (sizeX.toNat + 1) + x,
         (z + 1) * (sizeX.toNat + 1) + x + 1] := by
  rw [createRenderBlock]
  dsimp only
  set nx := sizeX.toNat with hnx
  set nz := sizeZ.toNat with hnz
  have hrow : ∀ i : ℕ,
      ((List.range nx).flatMap fun j =>
        [i * (nx + 1) + j, (i + 1) * (nx + 1) + j, i * (nx + 1) + j + 1,
         i * (nx + 1) + j + 1, (i + 1) * (nx + 1) + j,
         (i + 1) * (nx + 1) + j + 1]).length = nx * 6 :=
    fun i => length_flatMap_const nx 6
      (fun j => [i * (nx + 1) + j, (i + 1) * (nx + 1) + j, i * (nx + 1) + j + 1,
        i * (nx + 1) + j + 1, (i + 1) * (nx + 1) + j, (i + 1) * (nx + 1) + j + 1])
      (fun j => rfl)
  have hidx : 6 * (z * nx + x) = nx * 6 * z + 6 * x := by ring
  rw [hidx, ← List.drop_drop, List.range_eq_range' nz]
  rw [flatMap_range'_drop
    (fun i => (List.range nx).flatMap fun j =>
      [i * (nx + 1) + j, (i + 1) * (nx + 1) + j, i * (nx + 1) + j + 1,
       i * (nx + 1) + j + 1, (i + 1) * (nx + 1) + j, (i + 1) * (nx + 1) + j + 1])
    (nx * 6) hrow z nz 0 hz]
  rw [Nat.zero_add]
  rw [List.drop_append_of_le_length (by rw [hrow z]; omega)]
  rw [List.range_eq_range' nx]
  rw [flatMap_range'_drop
    (fun j => [z * (nx + 1) + j, (z + 1) * (nx + 1) + j, z * (nx + 1) + j + 1,
      z * (nx + 1) + j + 1, (z + 1) * (nx + 1) + j, (z + 1) * (nx + 1) + j + 1])
    6 (fun i => rfl) x nx 0 hx]
  rw [Nat.zero_add]
  rfl

/-- Claim C8: for all integer inputs with `sizeX ≥ 0`, `sizeZ ≥ 0`,
`createRenderBlock` produces exactly `(sizeX+1)*(sizeZ+1)` vertices whose
set is the integer grid `[startX..startX+sizeX] × [startZ..startZ+sizeZ]`,
and `6*sizeX*sizeZ` indices (`indexCount` records that number); for every
unit quad `(x, z)` of the block, the six indices starting at entry
`6*(z*sizeX+x)` are `tl, bl, tr, tr, bl, br`, which decode through the
vertex list to the winding (top-left, bottom-left, top-right) then
(top-right, bottom-left, bottom-right).  Being a Lean function of its
four inputs, the construction is deterministic and pure. -/
theorem createRenderBlock_spec (startX startZ sizeX sizeZ : ℤ)
    (hsx : 0 ≤ sizeX) (hsz : 0 ≤ sizeZ) :
    (createRenderBlock startX startZ sizeX sizeZ).vertices.length
        = (sizeX.toNat + 1) * (sizeZ.toNat + 1) ∧
    (∀ p : ℤ × ℤ, p ∈ (createRenderBlock startX startZ sizeX sizeZ).vertices ↔
        startX ≤ p.1 ∧ p.1 ≤ startX + sizeX ∧
        startZ ≤ p.2 ∧ p.2 ≤ startZ + sizeZ) ∧
    (createRenderBlock startX startZ sizeX sizeZ).indexCount
        = 6 * sizeX.toNat * sizeZ.toNat ∧
    (createRenderBlock startX startZ sizeX sizeZ).indices.length
        = 6 * sizeX.toNat * sizeZ.toNat ∧
    (∀ x z : ℕ, x < sizeX.toNat → z < sizeZ.toNat →
      ((createRenderBlock startX startZ sizeX sizeZ).indices.drop
          (6 * (z * sizeX.toNat + x))).take 6
        = [z * (sizeX.toNat + 1) + x,
           (z + 1) * (sizeX.toNat + 1) + x,
           z * (sizeX.toNat + 1) + x + 1,
           z * (sizeX.toNat + 1) + x + 1,
           (z + 1) * (sizeX.toNat + 1) + x,
           (z + 1) * (sizeX.toNat + 1) + x + 1] ∧
      (createRenderBlock startX startZ sizeX sizeZ).vertices[z * (sizeX.toNat + 1) + x]?
          = some (startX + (x : ℤ), startZ + (z : ℤ)) ∧
      (createRenderBlock startX startZ sizeX sizeZ).vertices[(z + 1) * (sizeX.toNat + 1) + x]?
          = some (startX + (x : ℤ), startZ + (z : ℤ) + 1) ∧
      (createRenderBlock startX startZ sizeX sizeZ).vertices[z * (sizeX.toNat + 1) + x + 1]?
          = some (startX + (x : ℤ) + 1, startZ + (z : ℤ)) ∧
      (createRenderBlock startX startZ sizeX sizeZ).vertices[(z + 1) * (sizeX.toNat + 1) + x + 1]?
          = some (startX + (x : ℤ) + 1, startZ + (z : ℤ) + 1)) := by
  refine ⟨?_, mem_vertices_createRenderBlock startX startZ sizeX sizeZ hsx hsz,
    indexCount_createRenderBlock startX startZ sizeX sizeZ,
    indices_length_createRenderBlock startX startZ sizeX sizeZ,
    ?_⟩
  · rw [vertices_length_createRenderBlock]
    have e1 : (sizeX + 1).toNat = sizeX.toNat + 1 := by omega
    have e2 : (sizeZ + 1).toNat = sizeZ.toNat + 1 := by omega
    rw [e1, e2]
    ring
  intro x z hx hz
  refine ⟨indices_quad_createRenderBlock startX startZ sizeX sizeZ x z hx hz,
    getElem_vertices_createRenderBlock startX startZ sizeX sizeZ hsx hsz
      x z (by omega) (by omega), ?_, ?_, ?_⟩
  · have h := getElem_vertices_createRenderBlock startX startZ sizeX sizeZ hsx hsz
      x (z + 1) (by omega) (by omega)
    push_cast at h
    rw [← add_assoc] at h
    exact h
  · have h := getElem_vertices_createRenderBlock startX startZ sizeX sizeZ hsx hsz
      (x + 1) z (by omega) (by omega)
    push_cast at h
    rw [← add_assoc, ← add_assoc] at h
    exact h
  · have h := getElem_vertices_createRenderBlock startX startZ sizeX sizeZ hsx hsz
      (x + 1) (z + 1) (by omega) (by omega)
    push_cast at h
    rw [← add_assoc, ← add_assoc, ← add_assoc] at h
    exact h

/-- Witness for C8 at the concrete block `createRenderBlock 0 0 1 1`,
instantiating the per-quad part at its quad `(0, 0)`. -/
theorem createRenderBlock_spec_witness :
    (createRenderBlock 0 0 1 1).vertices.length = 4 ∧
    (∀ p : ℤ × ℤ, p ∈ (createRenderBlock 0 0 1 1).vertices ↔
        0 ≤ p.1 ∧ p.1 ≤ 1 ∧ 0 ≤ p.2 ∧ p.2 ≤ 1) ∧
    (createRenderBlock 0 0 1 1).indexCount = 6 ∧
    (createRenderBlock 0 0 1 1).indices.length = 6 ∧
    (((createRenderBlock 0 0 1 1).indices.drop 0).take 6 = [0, 2, 1, 1, 2, 3] ∧
     (createRenderBlock 0 0 1 1).vertices[0]? = some (0, 0) ∧
     (createRenderBlock 0 0 1 1).vertices[2]? = some (0, 1) ∧
     (createRenderBlock 0 0 1 1).vertices[1]? = some (1, 0) ∧
     (createRenderBlock 0 0 1 1).vertices[3]? = some (1, 1)) := by
  have h := createRenderBlock_spec 0 0 1 1 (by decide) (by decide)
  exact ⟨h.1, h.2.1, h.2.2.1, h.2.2.2.1, h.2.2.2.2 0 0 (by decide) (by decide)⟩

lemma allTiles_explicit :
    allTiles =
      [createRenderBlock 0 0 63 63, createRenderBlock 64 0 63 63,
       createRenderBlock 128 0 63 63, createRenderBlock 192 0 63 63,
       createRenderBlock 0 64 63 63, createRenderBlock 192 64 63 63,
       createRenderBlock 0 128 63 63, createRenderBlock 192 128 63 63,
       createRenderBlock 0 192 63 63, createRenderBlock 64 192 63 63,
       createRenderBlock 128 192 63 63, createRenderBlock 192 192 63 63,
       createRenderBlock 63 0 3 63, createRenderBlock 128 0 3 63,
       createRenderBlock 63 192 3 63, createRenderBlock 128 192 3 63,
       createRenderBlock 64 64 62 62, createRenderBlock 126 64 62 62,
       createRenderBlock 64 126 62 62, createRenderBlock 126 126 62 62] := rfl

/-- Claim C7 evaluated at its failing inputs: the 20-tile layout of
`createGeometryBlocks()` does not tile the extent.  The in-extent unit
quad `(127, 0)` (the seam column between the blocks at `x = 64` and
`x = 128`, `0 ≤ 127 < N`) is covered by no tile, and the quad `(64, 0)`
is covered by two tiles (the block at `(64, 0)` and the 3-wide fix-up
strip at `(63, 0)` overlap), so the occupancy count is not 1 everywhere. -/
theorem tiling_gap_and_overlap :
    (0 : ℤ) ≤ 127 ∧ (127 : ℤ) < (N : ℤ) ∧
    coverageCount (127, 0) = 0 ∧ coverageCount (64, 0) = 2 := by
  refine ⟨by decide, by decide, ?_, ?_⟩ <;>
  · rw [coverageCount, allTiles_explicit]
    simp [List.filter_cons, List.filter_nil, coversQuad_createRenderBlock,
      decide_eq_true_eq]

/-- Claim C1: whenever the re-centering engine of graphicalInterface.cpp
runs with a viewer position whose snapped offset differs from a level's
current `worldOffset`, it stores the snapped offset in that level and
increments its `updateCount` by exactly 1; and in the spec's concrete
scenario — frame 1 at viewer `(12, 7)` (level 0 then at `(10, 5)`),
frame 2 at viewer `(15, 9.9)` — level 0's offset becomes `(15, 5)` and
only level 0's `updateCount` is incremented by the second frame. -/
theorem recenter_applies_snap_and_counts :
    (∀ (v : ℚ × ℚ) (ls : List ClipmapLevel) (i : ℕ) (lvl : ClipmapLevel),
        ls[i]? = some lvl →
        snapOffset v lvl.scale ≠ lvl.worldOffset →
        ∃ lvl', (updateClipmapLevels v ls)[i]? = some lvl' ∧
          lvl'.worldOffset = snapOffset v lvl.scale ∧
          lvl'.updateCount = lvl.updateCount + 1) ∧
    (updateClipmapLevels (12, 7) initClipmapLevels).map (fun l => l.worldOffset)
        = [(10, 5), (10, 0), (0, 0), (0, 0), (0, 0), (0, 0), (0, 0), (0, 0)] ∧
    (updateClipmapLevels (12, 7) initClipmapLevels).map (fun l => l.updateCount)
        = [1, 1, 0, 0, 0, 0, 0, 0] ∧
    (updateClipmapLevels (15, 99/10)
        (updateClipmapLevels (12, 7) initClipmapLevels)).map (fun l => l.worldOffset)
        = [(15, 5), (10, 0), (0, 0), (0, 0), (0, 0), (0, 0), (0, 0), (0, 0)] ∧
    (updateClipmapLevels (15, 99/10)
        (updateClipmapLevels (12, 7) initClipmapLevels)).map (fun l => l.updateCount)
        = [2, 1, 0, 0, 0, 0, 0, 0] := by
  have A0 : snapOffset (12, 7) ((2 : ℚ) ^ (0 : ℕ)) = ((10 : ℚ), (5 : ℚ)) := by
    simp only [snapOffset, gridSpacing, Prod.mk.injEq]; norm_num
  have A1 : snapOffset (12, 7) ((2 : ℚ) ^ (1 : ℕ)) = ((10 : ℚ), (0 : ℚ)) := by
    simp only [snapOffset, gridSpacing, Prod.mk.injEq]; norm_num
  have A2 : snapOffset (12, 7) ((2 : ℚ) ^ (2 : ℕ)) = ((0 : ℚ), (0 : ℚ)) := by
    simp only [snapOffset, gridSpacing, Prod.mk.injEq]; norm_num
  have A3 : snapOffset (12, 7) ((2 : ℚ) ^ (3 : ℕ)) = ((0 : ℚ), (0 : ℚ)) := by
    simp only [snapOffset, gridSpacing, Prod.mk.injEq]; norm_num
  have A4 : snapOffset (12, 7) ((2 : ℚ) ^ (4 : ℕ)) = ((0 : ℚ), (0 : ℚ)) := by
    simp only [snapOffset, gridSpacing, Prod.mk.injEq]; norm_num
  have A5 : snapOffset (12, 7) ((2 : ℚ) ^ (5 : ℕ)) = ((0 : ℚ), (0 : ℚ)) := by
    simp only [snapOffset, gridSpacing, Prod.mk.injEq]; norm_num
  have A6 : snapOffset (12, 7) ((2 : ℚ) ^ (6 : ℕ)) = ((0 : ℚ), (0 : ℚ)) := by
    simp only [snapOffset, gridSpacing, Prod.mk.injEq]; norm_num
  have A7 : snapOffset (12, 7) ((2 : ℚ) ^ (7 : ℕ)) = ((0 : ℚ), (0 : ℚ)) := by
    simp only [snapOffset, gridSpacing, Prod.mk.injEq]; norm_num
  have B0 : snapOffset (15, 99/10) ((2 : ℚ) ^ (0 : ℕ)) = ((15 : ℚ), (5 : ℚ)) := by
    simp only [snapOffset, gridSpacing, Prod.mk.injEq]; norm_num
  have B1 : snapOffset (15, 99/10) ((2 : ℚ) ^ (1 : ℕ)) = ((10 : ℚ), (0 : ℚ)) := by
    simp only [snapOffset, gridSpacing, Prod.mk.injEq]; norm_num
  have B2 : snapOffset (15, 99/10) ((2 : ℚ) ^ (2 : ℕ)) = ((0 : ℚ), (0 : ℚ)) := by
    simp only [snapOffset, gridSpacing, Prod.mk.injEq]; norm_num
  have B3 : snapOffset (15, 99/10) ((2 : ℚ) ^ (3 : ℕ)) = ((0 : ℚ), (0 : ℚ)) := by
    simp only [snapOffset, gridSpacing, Prod.mk.injEq]; norm_num
  have B4 : snapOffset (15, 99/10) ((2 : ℚ) ^ (4 : ℕ)) = ((0 : ℚ), (0 : ℚ)) := by
    simp only [snapOffset, gridSpacing, Prod.mk.injEq]; norm_num
  have B5 : snapOffset (15, 99/10) ((2 : ℚ) ^ (5 : ℕ)) = ((0 : ℚ), (0 : ℚ)) := by
    simp only [snapOffset, gridSpacing, Prod.mk.injEq]; norm_num
  have B6 : snapOffset (15, 99/10) ((2 : ℚ) ^ (6 : ℕ)) = ((0 : ℚ), (0 : ℚ)) := by
    simp only [snapOffset, gridSpacing, Prod.mk.injEq]; norm_num
  have B7 : snapOffset (15, 99/10) ((2 : ℚ) ^ (7 : ℕ)) = ((0 : ℚ), (0 : ℚ)) := by
    simp only [snapOffset, gridSpacing, Prod.mk.injEq]; norm_num
  refine ⟨?_, ?_, ?_, ?_, ?_⟩
  · intro v ls i lvl hget hne
    refine ⟨updateLevelGI v lvl, ?_, worldOffset_updateLevelGI v lvl, ?_⟩
    · rw [updateClipmapLevels, List.getElem?_map, hget]
      rfl
    · rw [updateCount_updateLevelGI, if_neg fun e => hne e.symm]
  · simp only [initClipmapLevels_explicit, updateClipmapLevels,
      List.map_cons, List.map_nil, worldOffset_updateLevelGI, initLevel_scale,
      A0, A1, A2, A3, A4, A5, A6, A7]
  · simp only [initClipmapLevels_explicit, updateClipmapLevels,
      List.map_cons, List.map_nil, updateCount_updateLevelGI, initLevel_scale,
      initLevel_worldOffset, initLevel_updateCount,
      A0, A1, A2, A3, A4, A5, A6, A7, List.cons.injEq, and_true]
    norm_num [Prod.ext_iff]
  · simp only [initClipmapLevels_explicit, updateClipmapLevels,
      List.map_cons, List.map_nil, worldOffset_updateLevelGI,
      scale_updateLevelGI, initLevel_scale,
      B0, B1, B2, B3, B4, B5, B6, B7]
  · simp only [initClipmapLevels_explicit, updateClipmapLevels,
      List.map_cons, List.map_nil, updateCount_updateLevelGI,
      worldOffset_updateLevelGI, scale_updateLevelGI, initLevel_scale,
      initLevel_worldOffset, initLevel_updateCount,
      A0, A1, A2, A3, A4, A5, A6, A7, B0, B1, B2, B3, B4, B5, B6, B7,
      List.cons.injEq, and_true]
    norm_num [Prod.ext_iff]

/-- Witness for the general part of C1: at viewer `(12, 7)`, level 0 of
the freshly initialized state (offset `(0,0)`, snapped offset `(10,5)`)
is re-centered and its `updateCount` goes up by exactly 1. -/
theorem recenter_applies_snap_and_counts_witness :
    ∃ lvl', (updateClipmapLevels (12, 7) initClipmapLevels)[0]? = some lvl' ∧
      lvl'.worldOffset = snapOffset (12, 7) (initLevel 0).scale ∧
      lvl'.updateCount = (initLevel 0).updateCount + 1 :=
  recenter_applies_snap_and_counts.1 (12, 7) initClipmapLevels 0 (initLevel 0)
    (by rfl)
    (by simp only [initLevel_scale, initLevel_worldOffset, snapOffset,
          gridSpacing, Ne, Prod.mk.injEq, not_and]
        norm_num)

/-- Claim C6: `createGeometryBlocks()` produces exactly 12 blocks, 4
fix-up strips and 4 interior trims, and every tile's `indexCount` equals
`6 * sizeX * sizeZ` for the sizes it was built with: `(m-1)×(m-1)` for
blocks, `3×(m-1)` for strips, `(m-2)×(m-2)` for trims, `m = BLOCK_SIZE`. -/
theorem geometry_tile_counts :
    blocks.length = 12 ∧ fixupStrips.length = 4 ∧ interiorTrims.length = 4 ∧
    List.Forall
      (fun b => b.indexCount = 6 * (BLOCK_SIZE - 1) * (BLOCK_SIZE - 1)) blocks ∧
    List.Forall
      (fun b => b.indexCount = 6 * 3 * (BLOCK_SIZE - 1)) fixupStrips ∧
    List.Forall
      (fun b => b.indexCount = 6 * (BLOCK_SIZE - 2) * (BLOCK_SIZE - 2))
      interiorTrims := by
  refine ⟨?_, ?_, ?_, ?_, ?_, ?_⟩
  · rw [blocks, createGeometryBlocks]; simp
  · rw [fixupStrips, createGeometryBlocks]; simp
  · rw [interiorTrims, createGeometryBlocks]; simp
  · rw [List.forall_iff_forall_mem]
    intro b hb
    rw [blocks, createGeometryBlocks] at hb
    simp only [List.mem_map] at hb
    obtain ⟨p, -, rfl⟩ := hb
    rw [indexCount_createRenderBlock]
    decide
  · rw [List.forall_iff_forall_mem]
    intro b hb
    rw [fixupStrips, createGeometryBlocks] at hb
    simp only [List.mem_map] at hb
    obtain ⟨p, -, rfl⟩ := hb
    rw [indexCount_createRenderBlock]
    decide
  · rw [List.forall_iff_forall_mem]
    intro b hb
    rw [interiorTrims, createGeometryBlocks] at hb
    simp only [List.mem_map] at hb
    obtain ⟨p, -, rfl⟩ := hb
    rw [indexCount_createRenderBlock]
    decide

end SComTree
